import Mathlib

/-!
Verification of the preferences dialog component
(`src/app/src/ui/preferences/preferences.tsx`).

The component is shallowly embedded: its state and props become Lean
structures, each event handler becomes a pure function on state (paired
with the list of external effects it emits where the source performs
dispatcher or config-store calls), and the asynchronous lifecycle steps
(`componentWillMount`, `onSave`) become functions from their inputs to the
resulting state update and emitted effect trace.

TypeScript `string | null` values become `Option String`; JavaScript
truthiness on such a value (`null` and `""` are both falsy) is made
explicit.  Helper modules that are not part of the provided source
(`gitAuthorNameIsValid`, `lookupPreferredEmail`, the numeric values of the
`PreferencesTab` enum, the account and merge-tool record shapes) are
modelled from the spec and marked as such in their doc comments.
-/

/-- Modelled from the spec: `UncommittedChangesStrategyKind`
(`src/app/src/models/uncommitted-changes-strategy.ts` is not under the
provided source).  The spec describes it only as "one value from a closed
enumeration, with a defined default" and gives the examples "stash, bring
along, warn". -/
inductive UncommittedChangesStrategyKind
  | askForConfirmation
  | stashOnCurrentBranch
  | moveToNewBranch
deriving DecidableEq, Repr

/-- Modelled from the spec: the defined default of the closed enumeration. -/
def uncommittedChangesStrategyKindDefault : UncommittedChangesStrategyKind :=
  UncommittedChangesStrategyKind.askForConfirmation

/-- Modelled from the spec: an account email record, exposing the address
and whether it is verified ("first verified, else first listed"). -/
structure AccountEmail where
  email : String
  verified : Bool
deriving DecidableEq, Repr

/-- Modelled from the spec: a signed-in account record, "each exposing
login and a preferred-email lookup" (`src/app/src/models/account.ts` is
not under the provided source). -/
structure Account where
  login : String
  emails : List AccountEmail
deriving DecidableEq, Repr

/-- Modelled from the spec: `lookupPreferredEmail`
(`src/app/src/lib/email.ts` is not under the provided source).  The spec:
the account's preferred email is the "first verified, else first listed",
and the lookup may yield nothing. -/
def lookupPreferredEmail (account : Account) : Option AccountEmail :=
  (account.emails.find? (fun e => e.verified)).or account.emails.head?

/-- The merge-tool record returned by `getMergeTool` and held in state:
a name plus an optional command string (the command is `null` when the
per-tool command key is unset). -/
structure IMergeTool where
  name : String
  command : Option String
deriving DecidableEq, Repr

/-- One entry of the list returned by `getAvailableEditors`; the component
projects out the `editor` field.  The editor identifier itself is modelled
as a string. -/
structure FoundEditor where
  editor : String
deriving DecidableEq, Repr

/-- One entry of the list returned by `getAvailableShells`; the component
projects out the `shell` field.  The shell identifier itself is modelled
as a string. -/
structure FoundShell where
  shell : String
deriving DecidableEq, Repr

/-- Modelled from the spec: the numeric values of the `PreferencesTab`
enum (`src/app/src/models/preferences.ts` is not under the provided
source).  The tab indices follow the order of the tab headers rendered in
`render` (Accounts, Integrations, Git, Appearance, Advanced), which is
also the order `onTabClicked` receives them from the tab bar. -/
def PreferencesTab.Accounts : Nat := 0

/-- Modelled from the spec: see `PreferencesTab.Accounts`. -/
def PreferencesTab.Integrations : Nat := 1

/-- Modelled from the spec: see `PreferencesTab.Accounts`. -/
def PreferencesTab.Git : Nat := 2

/-- Modelled from the spec: see `PreferencesTab.Accounts`. -/
def PreferencesTab.Appearance : Nat := 3

/-- Modelled from the spec: see `PreferencesTab.Accounts`. -/
def PreferencesTab.Advanced : Nat := 4

/-- Modelled from the spec: the set of characters git disallows in author
names, per the spec's examples "control characters, angle brackets". -/
def isGitNameDisallowedChar (c : Char) : Bool :=
  c.toNat < 32 || c = '<' || c = '>'

/-- Modelled from the spec: `gitAuthorNameIsValid`
(`src/app/src/ui/preferences/identifier-rules.ts` is not under the
provided source).  The spec: "a name composed entirely of disallowed
characters (the set of characters git disallows in author names, plus
whitespace-only names) is invalid ...; any other non-empty content is
valid". -/
def gitAuthorNameIsValid (name : String) : Bool :=
  !(name.data.all isGitNameDisallowedChar) && !(name.data.all Char.isWhitespace)

/-- JavaScript truthiness of a `string | null` value: `null` and the empty
string are the falsy cases. -/
def jsStrFalsy : Option String → Bool
  | none => true
  | some s => s == ""

/-- The props of the `Preferences` component (`IPreferencesProps`).  The
`dispatcher` and the `onDismissed` callback are represented by the effect
trace the handlers emit rather than by fields. -/
structure IPreferencesProps where
  dotComAccount : Option Account
  enterpriseAccount : Option Account
  optOutOfUsageTracking : Bool
  initialSelectedTab : Option Nat
  confirmRepositoryRemoval : Bool
  confirmDiscardChanges : Bool
  confirmForcePush : Bool
  uncommittedChangesStrategyKind : UncommittedChangesStrategyKind
  selectedExternalEditor : Option String
  selectedShell : String
  selectedTheme : String
  automaticallySwitchTheme : Bool
deriving DecidableEq, Repr

/-- The state of the `Preferences` component (`IPreferencesState`).
`selectedIndex` is a raw number: `onTabClicked` stores whatever index the
tab bar reports, which is why the render functions keep a failure branch
for out-of-range values. -/
structure IPreferencesState where
  selectedIndex : Nat
  committerName : String
  committerEmail : String
  disallowedCharactersMessage : Option String
  optOutOfUsageTracking : Bool
  confirmRepositoryRemoval : Bool
  confirmDiscardChanges : Bool
  confirmForcePush : Bool
  automaticallySwitchTheme : Bool
  uncommittedChangesStrategyKind : UncommittedChangesStrategyKind
  availableEditors : List String
  selectedExternalEditor : Option String
  availableShells : List String
  selectedShell : String
  mergeTool : Option IMergeTool
deriving DecidableEq, Repr

/-- The state built by the constructor: the selected tab comes from
`initialSelectedTab || PreferencesTab.Accounts` (`Accounts` is 0, so the
JavaScript `||` coincides with defaulting), editor and shell selections
are seeded from props, and every other field starts at a hardcoded
empty/false/default value. -/
def initialState (props : IPreferencesProps) : IPreferencesState where
  selectedIndex := props.initialSelectedTab.getD PreferencesTab.Accounts
  committerName := ""
  committerEmail := ""
  disallowedCharactersMessage := none
  availableEditors := []
  optOutOfUsageTracking := false
  confirmRepositoryRemoval := false
  confirmDiscardChanges := false
  confirmForcePush := false
  uncommittedChangesStrategyKind := uncommittedChangesStrategyKindDefault
  automaticallySwitchTheme := false
  selectedExternalEditor := props.selectedExternalEditor
  availableShells := []
  selectedShell := props.selectedShell
  mergeTool := none

/-- The identity-seeding part of `componentWillMount`: read `user.name`
and `user.email` from the global config (`cfg` stands for
`getGlobalConfigValue`, returning `string | null`); if either is falsy
and an account exists (`dotComAccount || enterpriseAccount`), seed the
missing name from the account login and the missing email from
`lookupPreferredEmail`; finally both values are coerced to strings via
`|| ''`. -/
def componentWillMountIdentity (cfg : String → Option String)
    (dotComAccount enterpriseAccount : Option Account) : String × String :=
  let committerName := cfg "user.name"
  let committerEmail := cfg "user.email"
  let seeded : Option String × Option String :=
    if jsStrFalsy committerName || jsStrFalsy committerEmail then
      match dotComAccount.or enterpriseAccount with
      | some account =>
        let committerName :=
          if jsStrFalsy committerName then some account.login else committerName
        let committerEmail :=
          if jsStrFalsy committerEmail then
            match lookupPreferredEmail account with
            | some found => some found.email
            | none => committerEmail
          else committerEmail
        (committerName, committerEmail)
      | none => (committerName, committerEmail)
    else (committerName, committerEmail)
  (seeded.1.getD "", seeded.2.getD "")

/-- The single `setState` performed by `componentWillMount`: commit the
seeded identity, copy the behavior flags and the strategy from props, and
store the fetched editor list, shell list and merge tool.  The fields not
mentioned by the source `setState` call (selected tab, validity message,
editor/shell selections, theme switch flag) are left unchanged. -/
def componentWillMount (props : IPreferencesProps) (cfg : String → Option String)
    (editors : List FoundEditor) (shells : List FoundShell)
    (mergeTool : Option IMergeTool) (s : IPreferencesState) : IPreferencesState :=
  let identity := componentWillMountIdentity cfg props.dotComAccount props.enterpriseAccount
  { s with
    committerName := identity.1
    committerEmail := identity.2
    optOutOfUsageTracking := props.optOutOfUsageTracking
    confirmRepositoryRemoval := props.confirmRepositoryRemoval
    confirmDiscardChanges := props.confirmDiscardChanges
    confirmForcePush := props.confirmForcePush
    uncommittedChangesStrategyKind := props.uncommittedChangesStrategyKind
    availableShells := shells.map (fun e => e.shell)
    availableEditors := editors.map (fun e => e.editor)
    mergeTool := mergeTool }

/-- An external effect emitted by a handler: a global-config write, a
dispatcher call, or the dismissal callback. -/
inductive Effect
  | setGlobalConfig (key value : String)
  | setStatsOptOut (optOut : Bool) (fromDialog : Bool)
  | setConfirmRepoRemovalSetting (value : Bool)
  | setConfirmForcePushSetting (value : Bool)
  | setExternalEditor (editor : String)
  | setShell (shell : String)
  | setConfirmDiscardChangesSetting (value : Bool)
  | setUncommittedChangesStrategyKindSetting (value : UncommittedChangesStrategyKind)
  | setSelectedTheme (theme : String)
  | setAutomaticallySwitchTheme (value : Bool)
  | onDismissed
deriving DecidableEq, Repr

/-- The merge-tool tail of `onSave`: `if (mergeTool && mergeTool.name)`
write `merge.tool`, and inside that, `if (mergeTool.command)` write
`mergetool.<name>.cmd`.  Both guards are JavaScript truthiness checks, so
an empty name or an empty command skips the corresponding write. -/
def mergeToolWrites : Option IMergeTool → List Effect
  | none => []
  | some mergeTool =>
    if mergeTool.name ≠ "" then
      Effect.setGlobalConfig "merge.tool" mergeTool.name ::
        (match mergeTool.command with
         | some command =>
           if command ≠ "" then
             [Effect.setGlobalConfig ("mergetool." ++ mergeTool.name ++ ".cmd") command]
           else []
         | none => [])
    else []

/-- The effect trace of `onSave`, in source order: the two identity config
writes, the stats opt-out, the repo-removal and force-push confirms, the
external editor (only when one is selected), the shell, the
discard-changes confirm, the uncommitted-changes strategy, the merge-tool
writes, and finally the dismissal callback. -/
def onSave (state : IPreferencesState) : List Effect :=
  [ Effect.setGlobalConfig "user.name" state.committerName,
    Effect.setGlobalConfig "user.email" state.committerEmail,
    Effect.setStatsOptOut state.optOutOfUsageTracking false,
    Effect.setConfirmRepoRemovalSetting state.confirmRepositoryRemoval,
    Effect.setConfirmForcePushSetting state.confirmForcePush ]
  ++ (match state.selectedExternalEditor with
      | some editor => [Effect.setExternalEditor editor]
      | none => [])
  ++ [ Effect.setShell state.selectedShell,
       Effect.setConfirmDiscardChangesSetting state.confirmDiscardChanges,
       Effect.setUncommittedChangesStrategyKindSetting
         state.uncommittedChangesStrategyKind ]
  ++ mergeToolWrites state.mergeTool
  ++ [ Effect.onDismissed ]

/-- The `onTabClicked` handler: store the clicked index.  It is a bare
`setState`, so its effect trace is empty. -/
def onTabClicked (index : Nat) (s : IPreferencesState) :
    IPreferencesState × List Effect :=
  ({ s with selectedIndex := index }, [])

/-- The fixed message shown when the committer name fails validation. -/
def disallowedMessageText : String :=
  "Name is invalid, it consists only of disallowed characters."

/-- The `onCommitterNameChanged` handler: store the name and recompute the
validity message in the same state update. -/
def onCommitterNameChanged (committerName : String) (s : IPreferencesState) :
    IPreferencesState :=
  { s with
    committerName := committerName
    disallowedCharactersMessage :=
      if gitAuthorNameIsValid committerName then none
      else some disallowedMessageText }

/-- The `onCommitterEmailChanged` handler. -/
def onCommitterEmailChanged (committerEmail : String) (s : IPreferencesState) :
    IPreferencesState :=
  { s with committerEmail := committerEmail }

/-- The `onOptOutofReportingChanged` handler. -/
def onOptOutofReportingChanged (value : Bool) (s : IPreferencesState) :
    IPreferencesState :=
  { s with optOutOfUsageTracking := value }

/-- The `onConfirmRepositoryRemovalChanged` handler. -/
def onConfirmRepositoryRemovalChanged (value : Bool) (s : IPreferencesState) :
    IPreferencesState :=
  { s with confirmRepositoryRemoval := value }

/-- The `onConfirmDiscardChangesChanged` handler. -/
def onConfirmDiscardChangesChanged (value : Bool) (s : IPreferencesState) :
    IPreferencesState :=
  { s with confirmDiscardChanges := value }

/-- The `onConfirmForcePushChanged` handler. -/
def onConfirmForcePushChanged (value : Bool) (s : IPreferencesState) :
    IPreferencesState :=
  { s with confirmForcePush := value }

/-- The `onUncommittedChangesStrategyKindChanged` handler. -/
def onUncommittedChangesStrategyKindChanged (value : UncommittedChangesStrategyKind)
    (s : IPreferencesState) : IPreferencesState :=
  { s with uncommittedChangesStrategyKind := value }

/-- The `onSelectedEditorChanged` handler. -/
def onSelectedEditorChanged (editor : String) (s : IPreferencesState) :
    IPreferencesState :=
  { s with selectedExternalEditor := some editor }

/-- The `onSelectedShellChanged` handler. -/
def onSelectedShellChanged (shell : String) (s : IPreferencesState) :
    IPreferencesState :=
  { s with selectedShell := shell }

/-- The `onMergeToolNameChanged` handler: the new record keeps the
previous command via `this.state.mergeTool && this.state.mergeTool.command`
(which is `null` when no merge-tool record exists). -/
def onMergeToolNameChanged (name : String) (s : IPreferencesState) :
    IPreferencesState :=
  { s with mergeTool := some { name := name, command := s.mergeTool.bind (fun mt => mt.command) } }

/-- The `onMergeToolCommandChanged` handler: the new record takes its name
from `this.state.mergeTool ? this.state.mergeTool.name : ''`. -/
def onMergeToolCommandChanged (command : String) (s : IPreferencesState) :
    IPreferencesState :=
  let name := match s.mergeTool with
    | some mt => mt.name
    | none => ""
  { s with mergeTool := some { name := name, command := some command } }

/-- The sub-view rendered for the active tab, carrying the props the
source passes to it. -/
inductive TabView
  | accounts (dotComAccount enterpriseAccount : Option Account)
  | integrations (availableEditors : List String) (selectedExternalEditor : Option String)
      (availableShells : List String) (selectedShell : String)
      (mergeTool : Option IMergeTool)
  | git (name email : String)
  | appearance (selectedTheme : String) (automaticallySwitchTheme : Bool)
  | advanced (optOutOfUsageTracking confirmRepositoryRemoval
      confirmDiscardChanges confirmForcePush : Bool)
      (uncommittedChangesStrategyKind : UncommittedChangesStrategyKind)
deriving DecidableEq, Repr

/-- The result of `renderActiveTab`: either a sub-view or the
`assertNever` failure branch (a fatal, unrecoverable error carrying the
formatted message). -/
inductive ActiveTabRender
  | view (v : TabView)
  | fatalError (msg : String)
deriving DecidableEq, Repr

/-- The `renderActiveTab` switch over `this.state.selectedIndex`: the five
enum values map to the five sub-views, anything else falls through to
`assertNever`. -/
def renderActiveTab (props : IPreferencesProps) (s : IPreferencesState) :
    ActiveTabRender :=
  match s.selectedIndex with
  | 0 => ActiveTabRender.view
      (TabView.accounts props.dotComAccount props.enterpriseAccount)
  | 1 => ActiveTabRender.view
      (TabView.integrations s.availableEditors s.selectedExternalEditor
        s.availableShells s.selectedShell s.mergeTool)
  | 2 => ActiveTabRender.view (TabView.git s.committerName s.committerEmail)
  | 3 => ActiveTabRender.view
      (TabView.appearance props.selectedTheme props.automaticallySwitchTheme)
  | 4 => ActiveTabRender.view
      (TabView.advanced s.optOutOfUsageTracking s.confirmRepositoryRemoval
        s.confirmDiscardChanges s.confirmForcePush
        s.uncommittedChangesStrategyKind)
  | i => ActiveTabRender.fatalError ("Unknown tab index: " ++ toString i)

/-- The result of `renderFooter`: no footer, a footer with a Save/Cancel
button group (recording the Save button's text and disabled flag), or the
`assertNever` failure branch. -/
inductive FooterRender
  | noFooter
  | footer (okButtonText : String) (okButtonDisabled : Bool)
  | fatalError (msg : String)
deriving DecidableEq, Repr

/-- The `renderFooter` switch: Accounts and Appearance render no footer;
Integrations, Advanced and Git render the Save/Cancel footer with Save
disabled exactly when `disallowedCharactersMessage != null`; anything else
falls through to `assertNever`. -/
def renderFooter (s : IPreferencesState) : FooterRender :=
  let hasDisabledError := s.disallowedCharactersMessage.isSome
  match s.selectedIndex with
  | 0 => FooterRender.noFooter
  | 3 => FooterRender.noFooter
  | 1 => FooterRender.footer "Save" hasDisabledError
  | 4 => FooterRender.footer "Save" hasDisabledError
  | 2 => FooterRender.footer "Save" hasDisabledError
  | i => FooterRender.fatalError ("Unknown tab index: " ++ toString i)

/-! ## Helper notions and lemmas -/

/-- The save trace writes the given global-config key (with some value). -/
def writesKey (events : List Effect) (key : String) : Prop :=
  ∃ v, Effect.setGlobalConfig key v ∈ events

theorem cmdKey_length (n : String) :
    ("mergetool." ++ n ++ ".cmd").length = n.length + 14 := by
  rw [String.length_append, String.length_append,
    show ("mergetool." : String).length = 10 from rfl,
    show (".cmd" : String).length = 4 from rfl]
  omega

theorem cmdKey_ne_userName (n : String) :
    "mergetool." ++ n ++ ".cmd" ≠ "user.name" := by
  intro h
  have h2 := congrArg String.length h
  rw [cmdKey_length, show ("user.name" : String).length = 9 from rfl] at h2
  omega

theorem cmdKey_ne_userEmail (n : String) :
    "mergetool." ++ n ++ ".cmd" ≠ "user.email" := by
  intro h
  have h2 := congrArg String.length h
  rw [cmdKey_length, show ("user.email" : String).length = 10 from rfl] at h2
  omega

theorem cmdKey_ne_mergeToolKey (n : String) :
    "mergetool." ++ n ++ ".cmd" ≠ "merge.tool" := by
  intro h
  have h2 := congrArg String.length h
  rw [cmdKey_length, show ("merge.tool" : String).length = 10 from rfl] at h2
  omega

theorem mem_mergeToolWrites {e : Effect} {mtOpt : Option IMergeTool}
    (h : e ∈ mergeToolWrites mtOpt) :
    ∃ mt, mtOpt = some mt ∧ mt.name ≠ "" ∧
      (e = Effect.setGlobalConfig "merge.tool" mt.name ∨
       ∃ c, mt.command = some c ∧ c ≠ "" ∧
         e = Effect.setGlobalConfig ("mergetool." ++ mt.name ++ ".cmd") c) := by
  cases mtOpt with
  | none => simp [mergeToolWrites] at h
  | some mt =>
    by_cases hn : mt.name = ""
    · simp [mergeToolWrites, hn] at h
    · refine ⟨mt, rfl, hn, ?_⟩
      cases hc : mt.command with
      | none =>
        simp [mergeToolWrites, hn, hc] at h
        exact Or.inl h
      | some c =>
        by_cases hce : c = ""
        · simp [mergeToolWrites, hn, hc, hce] at h
          exact Or.inl h
        · simp [mergeToolWrites, hn, hc, hce] at h
          rcases h with h | h
          · exact Or.inl h
          · exact Or.inr ⟨c, rfl, hce, h⟩

theorem mergeTool_mem_mergeToolWrites {mt : IMergeTool} (hn : mt.name ≠ "") :
    Effect.setGlobalConfig "merge.tool" mt.name ∈ mergeToolWrites (some mt) := by
  simp [mergeToolWrites, hn]

theorem cmd_mem_mergeToolWrites {mt : IMergeTool} {c : String} (hn : mt.name ≠ "")
    (hc : mt.command = some c) (hce : c ≠ "") :
    Effect.setGlobalConfig ("mergetool." ++ mt.name ++ ".cmd") c
      ∈ mergeToolWrites (some mt) := by
  simp [mergeToolWrites, hn, hc, hce]

theorem mem_onSave {e : Effect} {s : IPreferencesState} :
    e ∈ onSave s ↔
      (e = Effect.setGlobalConfig "user.name" s.committerName ∨
       e = Effect.setGlobalConfig "user.email" s.committerEmail ∨
       e = Effect.setStatsOptOut s.optOutOfUsageTracking false ∨
       e = Effect.setConfirmRepoRemovalSetting s.confirmRepositoryRemoval ∨
       e = Effect.setConfirmForcePushSetting s.confirmForcePush ∨
       (∃ ed, s.selectedExternalEditor = some ed ∧ e = Effect.setExternalEditor ed) ∨
       e = Effect.setShell s.selectedShell ∨
       e = Effect.setConfirmDiscardChangesSetting s.confirmDiscardChanges ∨
       e = Effect.setUncommittedChangesStrategyKindSetting
         s.uncommittedChangesStrategyKind ∨
       e ∈ mergeToolWrites s.mergeTool ∨
       e = Effect.onDismissed) := by
  cases hd : s.selectedExternalEditor with
  | none => simp [onSave, hd]
  | some ed => simp [onSave, hd]

theorem onSave_mergeKeys (s : IPreferencesState) :
    (writesKey (onSave s) "merge.tool" ↔
      ∃ mt, s.mergeTool = some mt ∧ mt.name ≠ "") ∧
    ((∃ n, writesKey (onSave s) ("mergetool." ++ n ++ ".cmd")) ↔
      ∃ mt, s.mergeTool = some mt ∧ mt.name ≠ "" ∧
        ∃ c, mt.command = some c ∧ c ≠ "") := by
  constructor
  · constructor
    · rintro ⟨v, hv⟩
      rw [mem_onSave] at hv
      rcases hv with h | h | h | h | h | ⟨ed, _, h⟩ | h | h | h | h | h <;>
        try simp at h
      rcases mem_mergeToolWrites h with ⟨mt, hmt, hn, heq | ⟨c, _, _, heq⟩⟩
      · exact ⟨mt, hmt, hn⟩
      · simp only [Effect.setGlobalConfig.injEq] at heq
        exact absurd heq.1.symm (cmdKey_ne_mergeToolKey mt.name)
    · rintro ⟨mt, hmt, hn⟩
      have hmem : Effect.setGlobalConfig "merge.tool" mt.name
          ∈ mergeToolWrites s.mergeTool := by
        rw [hmt]; exact mergeTool_mem_mergeToolWrites hn
      exact ⟨mt.name, mem_onSave.mpr (by tauto)⟩
  · constructor
    · rintro ⟨n, v, hv⟩
      rw [mem_onSave] at hv
      rcases hv with h | h | h | h | h | ⟨ed, _, h⟩ | h | h | h | h | h <;>
        try simp at h
      · exact absurd h.1 (cmdKey_ne_userName n)
      · exact absurd h.1 (cmdKey_ne_userEmail n)
      · rcases mem_mergeToolWrites h with ⟨mt, hmt, hn, heq | ⟨c, hc, hce, heq⟩⟩
        · simp only [Effect.setGlobalConfig.injEq] at heq
          exact absurd heq.1 (cmdKey_ne_mergeToolKey n)
        · exact ⟨mt, hmt, hn, c, hc, hce⟩
    · rintro ⟨mt, hmt, hn, c, hc, hce⟩
      have hmem : Effect.setGlobalConfig ("mergetool." ++ mt.name ++ ".cmd") c
          ∈ mergeToolWrites s.mergeTool := by
        rw [hmt]; exact cmd_mem_mergeToolWrites hn hc hce
      exact ⟨mt.name, c, mem_onSave.mpr (by tauto)⟩

/-- C1: for every save invocation, the key `merge.tool` is written if and
only if the merge-tool state has a non-empty name, and the key
`mergetool.<name>.cmd` is written if and only if both the name and the
command are non-empty; with an empty or absent name, neither key is
written. -/
theorem save_writes_merge_tool_keys_iff (s : IPreferencesState) :
    (writesKey (onSave s) "merge.tool" ↔
      ∃ mt, s.mergeTool = some mt ∧ mt.name ≠ "") ∧
    ((∃ n, writesKey (onSave s) ("mergetool." ++ n ++ ".cmd")) ↔
      ∃ mt, s.mergeTool = some mt ∧ mt.name ≠ "" ∧
        ∃ c, mt.command = some c ∧ c ≠ "") :=
  onSave_mergeKeys s

theorem onSave_getLast (s : IPreferencesState) :
    (onSave s).getLast? = some Effect.onDismissed := by
  rw [onSave]
  exact List.getLast?_concat _

/-- Concrete props used to instantiate hypotheses of the proved theorems
on explicit inputs. -/
def sampleProps : IPreferencesProps where
  dotComAccount := none
  enterpriseAccount := none
  optOutOfUsageTracking := true
  initialSelectedTab := none
  confirmRepositoryRemoval := true
  confirmDiscardChanges := true
  confirmForcePush := true
  uncommittedChangesStrategyKind := UncommittedChangesStrategyKind.stashOnCurrentBranch
  selectedExternalEditor := none
  selectedShell := "zsh"
  selectedTheme := "dark"
  automaticallySwitchTheme := true

/-- C9: the save operation performs no validity check: in every state
whose name-validity message is non-null, saving still writes the (invalid)
committer name to `user.name` and still ends by invoking the dismissal
callback. -/
theorem save_skips_validation (s : IPreferencesState)
    (_h : s.disallowedCharactersMessage ≠ none) :
    Effect.setGlobalConfig "user.name" s.committerName ∈ onSave s ∧
    (onSave s).getLast? = some Effect.onDismissed :=
  ⟨mem_onSave.mpr (Or.inl rfl), onSave_getLast s⟩

/-- Witness for C9: after typing the all-disallowed name consisting of
angle brackets, the validity message is non-null, yet saving still writes
that name and dismisses. -/
theorem save_skips_validation_witness :
    (onCommitterNameChanged "<>" (initialState sampleProps)).disallowedCharactersMessage
        ≠ none ∧
    (Effect.setGlobalConfig "user.name"
        (onCommitterNameChanged "<>" (initialState sampleProps)).committerName
      ∈ onSave (onCommitterNameChanged "<>" (initialState sampleProps)) ∧
    (onSave (onCommitterNameChanged "<>" (initialState sampleProps))).getLast?
      = some Effect.onDismissed) :=
  ⟨by decide, save_skips_validation _ (by decide)⟩

/-- C10: editing the merge-tool command while no merge-tool record exists
produces a record whose name is the empty string, so a subsequent save
writes neither `merge.tool` nor any `mergetool.<name>.cmd` key (the
entered command is silently discarded), while editing the name afterwards
preserves the previously entered command. -/
theorem merge_command_without_name (s : IPreferencesState) (c : String)
    (h : s.mergeTool = none) :
    (onMergeToolCommandChanged c s).mergeTool =
      some { name := "", command := some c } ∧
    ¬ writesKey (onSave (onMergeToolCommandChanged c s)) "merge.tool" ∧
    (¬ ∃ n, writesKey (onSave (onMergeToolCommandChanged c s))
        ("mergetool." ++ n ++ ".cmd")) ∧
    ∀ n, (onMergeToolNameChanged n (onMergeToolCommandChanged c s)).mergeTool =
      some { name := n, command := some c } := by
  have hmt : (onMergeToolCommandChanged c s).mergeTool =
      some { name := "", command := some c } := by
    simp [onMergeToolCommandChanged, h]
  refine ⟨hmt, ?_, ?_, ?_⟩
  · intro hw
    rcases (onSave_mergeKeys _).1.mp hw with ⟨mt, hmt2, hn⟩
    rw [hmt, Option.some_inj] at hmt2
    exact hn (by rw [← hmt2])
  · intro hw
    rcases (onSave_mergeKeys _).2.mp hw with ⟨mt, hmt2, hn, _⟩
    rw [hmt, Option.some_inj] at hmt2
    exact hn (by rw [← hmt2])
  · intro n
    simp [onMergeToolNameChanged, hmt]

/-- Witness for C10: from the freshly constructed state (whose merge-tool
record is absent), entering the command "mycmd" and then the name
"kdiff3" exercises every conjunct of the theorem. -/
theorem merge_command_without_name_witness :
    (initialState sampleProps).mergeTool = none ∧
    ((onMergeToolCommandChanged "mycmd" (initialState sampleProps)).mergeTool =
      some { name := "", command := some "mycmd" } ∧
    ¬ writesKey (onSave (onMergeToolCommandChanged "mycmd" (initialState sampleProps)))
        "merge.tool" ∧
    (¬ ∃ n, writesKey (onSave (onMergeToolCommandChanged "mycmd" (initialState sampleProps)))
        ("mergetool." ++ n ++ ".cmd")) ∧
    ∀ n, (onMergeToolNameChanged n
        (onMergeToolCommandChanged "mycmd" (initialState sampleProps))).mergeTool =
      some { name := n, command := some "mycmd" }) :=
  ⟨rfl, merge_command_without_name _ "mycmd" rfl⟩
/-- The position of each effect in the write order `onSave` actually
follows: `user.name`, `user.email`, stats opt-out, repo-removal confirm,
force-push confirm, external editor, shell, discard-changes confirm,
uncommitted-changes strategy, merge-tool config writes, dismissal.  The
theme effects never occur in a save trace. -/
def savePhase : Effect → Nat
  | Effect.setGlobalConfig k _ =>
      if k = "user.name" then 0 else if k = "user.email" then 1 else 9
  | Effect.setStatsOptOut _ _ => 2
  | Effect.setConfirmRepoRemovalSetting _ => 3
  | Effect.setConfirmForcePushSetting _ => 4
  | Effect.setExternalEditor _ => 5
  | Effect.setShell _ => 6
  | Effect.setConfirmDiscardChangesSetting _ => 7
  | Effect.setUncommittedChangesStrategyKindSetting _ => 8
  | Effect.setSelectedTheme _ => 0
  | Effect.setAutomaticallySwitchTheme _ => 0
  | Effect.onDismissed => 10

/-- The grouping asserted by the claimed write order: config writes (0)
before behavior-flag writes (1) before tool writes (2) before the
dismissal callback (3). -/
def claimPhase : Effect → Nat
  | Effect.setGlobalConfig k _ =>
      if k = "user.name" ∨ k = "user.email" then 0 else 2
  | Effect.setStatsOptOut _ _ => 1
  | Effect.setConfirmRepoRemovalSetting _ => 1
  | Effect.setConfirmForcePushSetting _ => 1
  | Effect.setExternalEditor _ => 2
  | Effect.setShell _ => 2
  | Effect.setConfirmDiscardChangesSetting _ => 1
  | Effect.setUncommittedChangesStrategyKindSetting _ => 2
  | Effect.setSelectedTheme _ => 0
  | Effect.setAutomaticallySwitchTheme _ => 0
  | Effect.onDismissed => 3

theorem savePhase_mergeToolWrites {e : Effect} {mtOpt : Option IMergeTool}
    (h : e ∈ mergeToolWrites mtOpt) : savePhase e = 9 := by
  rcases mem_mergeToolWrites h with ⟨mt, _, _, heq | ⟨c, _, _, heq⟩⟩ <;> subst heq <;>
    simp [savePhase, cmdKey_ne_userName, cmdKey_ne_userEmail]

theorem mergeToolWrites_shape (mtOpt : Option IMergeTool) :
    mergeToolWrites mtOpt = [] ∨
    (∃ n, mergeToolWrites mtOpt = [Effect.setGlobalConfig "merge.tool" n]) ∨
    (∃ n c, mergeToolWrites mtOpt =
      [Effect.setGlobalConfig "merge.tool" n,
       Effect.setGlobalConfig ("mergetool." ++ n ++ ".cmd") c]) := by
  cases mtOpt with
  | none => exact Or.inl rfl
  | some mt =>
    by_cases hn : mt.name = ""
    · exact Or.inl (by simp [mergeToolWrites, hn])
    · cases hc : mt.command with
      | none => exact Or.inr (Or.inl ⟨mt.name, by simp [mergeToolWrites, hn, hc]⟩)
      | some c =>
        by_cases hce : c = ""
        · exact Or.inr (Or.inl ⟨mt.name, by simp [mergeToolWrites, hn, hc, hce]⟩)
        · exact Or.inr (Or.inr ⟨mt.name, c, by simp [mergeToolWrites, hn, hc, hce]⟩)

theorem onSave_pairwise (s : IPreferencesState) :
    (onSave s).Pairwise (fun a b => savePhase a ≤ savePhase b) := by
  have happ : ∀ (l₁ l₂ : List Effect) (k : Nat),
      l₁.Pairwise (fun a b => savePhase a ≤ savePhase b) →
      l₂.Pairwise (fun a b => savePhase a ≤ savePhase b) →
      (∀ a ∈ l₁, savePhase a ≤ k) → (∀ b ∈ l₂, k ≤ savePhase b) →
      (l₁ ++ l₂).Pairwise (fun a b => savePhase a ≤ savePhase b) := by
    intro l₁ l₂ k h1 h2 hb1 hb2
    exact List.pairwise_append.mpr ⟨h1, h2, fun a ha b hb =>
      Nat.le_trans (hb1 a ha) (hb2 b hb)⟩
  have hmwP : (mergeToolWrites s.mergeTool).Pairwise
        (fun a b => savePhase a ≤ savePhase b) ∧
      (∀ a ∈ mergeToolWrites s.mergeTool, savePhase a ≤ 9) ∧
      (∀ a ∈ mergeToolWrites s.mergeTool, 9 ≤ savePhase a) := by
    refine ⟨?_, ?_, ?_⟩
    · rcases mergeToolWrites_shape s.mergeTool with h | ⟨n, h⟩ | ⟨n, c, h⟩ <;>
        rw [h] <;>
        simp [List.pairwise_cons, savePhase, cmdKey_ne_userName, cmdKey_ne_userEmail]
    · intro a ha; rw [savePhase_mergeToolWrites ha]
    · intro a ha; rw [savePhase_mergeToolWrites ha]
  have heditor : ∀ a ∈ (match s.selectedExternalEditor with
        | some editor => [Effect.setExternalEditor editor]
        | none => ([] : List Effect)), savePhase a = 5 := by
    cases s.selectedExternalEditor <;> simp [savePhase]
  rw [onSave]
  refine happ _ _ 10 (happ _ _ 9 (happ _ _ 6 (happ _ _ 5 ?_ ?_ ?_ ?_) ?_ ?_ ?_)
      hmwP.1 ?_ hmwP.2.2) ?_ ?_ ?_
  · simp [List.pairwise_cons, savePhase]
  · cases s.selectedExternalEditor <;> simp [List.pairwise_cons]
  · simp [savePhase]
  · intro b hb; rw [heditor b hb]
  · simp [List.pairwise_cons, savePhase]
  · intro a ha
    rcases List.mem_append.mp ha with h | h
    · simp only [List.mem_cons, List.mem_singleton] at h
      rcases h with h | h | h | h | h | h <;> first
        | (subst h; simp [savePhase])
        | exact absurd h (by simp)
    · rw [heditor a h]; omega
  · simp [savePhase]
  · intro a ha
    rcases List.mem_append.mp ha with h | h
    · rcases List.mem_append.mp h with h | h
      · simp only [List.mem_cons, List.mem_singleton] at h
        rcases h with h | h | h | h | h | h <;> first
          | (subst h; simp [savePhase])
          | exact absurd h (by simp)
      · rw [heditor a h]; omega
    · simp only [List.mem_cons, List.mem_singleton] at h
      rcases h with h | h | h | h <;> first
        | (subst h; simp [savePhase])
        | exact absurd h (by simp)
  · simp [List.pairwise_cons]
  · intro a ha
    rcases List.mem_append.mp ha with h | h
    · rcases List.mem_append.mp h with h | h
      · rcases List.mem_append.mp h with h | h
        · simp only [List.mem_cons, List.mem_singleton] at h
          rcases h with h | h | h | h | h | h <;> first
            | (subst h; simp [savePhase])
            | exact absurd h (by simp)
        · rw [heditor a h]; omega
      · simp only [List.mem_cons, List.mem_singleton] at h
        rcases h with h | h | h | h <;> first
          | (subst h; simp [savePhase])
          | exact absurd h (by simp)
    · rw [savePhase_mergeToolWrites h]; omega
  · simp [savePhase]

/-- Counterexample to C5: on the freshly constructed state, the save trace
violates the claimed grouping (config writes, then all behavior-flag
writes, then all tool writes): the shell write (a tool write) occurs
before the discard-changes write (a behavior-flag write). -/
theorem save_order_claim_false :
    ¬ (onSave (initialState sampleProps)).Pairwise
        (fun a b => claimPhase a ≤ claimPhase b) := by decide

/-- C5 (corrected): the save trace follows the source order — committer
name, email, telemetry opt-out, confirm-repository-removal,
confirm-force-push, external editor (when selected), shell,
confirm-discard-changes, uncommitted-changes strategy, merge-tool writes —
and the dismissal callback comes last, after all writes. -/
theorem save_order_phases (s : IPreferencesState) :
    (onSave s).Pairwise (fun a b => savePhase a ≤ savePhase b) ∧
    (onSave s).getLast? = some Effect.onDismissed :=
  ⟨onSave_pairwise s, onSave_getLast s⟩

/-- C2: the Accounts and Appearance tabs render no footer; the
Integrations, Git and Advanced tabs render a footer whose Save control is
disabled if and only if the name-validity message is non-null. -/
theorem footer_per_tab (s : IPreferencesState) :
    ((s.selectedIndex = PreferencesTab.Accounts ∨
      s.selectedIndex = PreferencesTab.Appearance) →
      renderFooter s = FooterRender.noFooter) ∧
    ((s.selectedIndex = PreferencesTab.Integrations ∨
      s.selectedIndex = PreferencesTab.Git ∨
      s.selectedIndex = PreferencesTab.Advanced) →
      ∃ d, renderFooter s = FooterRender.footer "Save" d ∧
        (d = true ↔ s.disallowedCharactersMessage ≠ none)) := by
  constructor
  · rintro (h | h) <;>
      simp [renderFooter, h, PreferencesTab.Accounts, PreferencesTab.Appearance]
  · rintro (h | h | h) <;>
      exact ⟨s.disallowedCharactersMessage.isSome,
        by simp [renderFooter, h, PreferencesTab.Integrations, PreferencesTab.Git,
          PreferencesTab.Advanced],
        by simp [Option.isSome_iff_ne_none]⟩

/-- A state on the Git tab with an invalid committer name recorded. -/
def sampleInvalidGitState : IPreferencesState :=
  { initialState sampleProps with
    selectedIndex := PreferencesTab.Git
    disallowedCharactersMessage := some disallowedMessageText }

/-- Witness for C2: the Appearance tab of the freshly constructed state
renders no footer, while the Git tab with an invalid name renders the
Save footer disabled. -/
theorem footer_per_tab_witness :
    renderFooter { initialState sampleProps with
      selectedIndex := PreferencesTab.Appearance } = FooterRender.noFooter ∧
    ∃ d, renderFooter sampleInvalidGitState = FooterRender.footer "Save" d ∧
      (d = true ↔ sampleInvalidGitState.disallowedCharactersMessage ≠ none) :=
  ⟨(footer_per_tab _).1 (Or.inr rfl), (footer_per_tab _).2 (Or.inr (Or.inl rfl))⟩

/-- C7: every selected-tab value outside the five-value enumeration makes
both render functions reach the exhaustive-match failure branch
(`assertNever`), while every value inside the enumeration keeps that
branch unreachable. -/
theorem tab_out_of_enumeration_fatal (props : IPreferencesProps)
    (s : IPreferencesState) :
    (5 ≤ s.selectedIndex →
      (∃ m, renderActiveTab props s = ActiveTabRender.fatalError m) ∧
      (∃ m, renderFooter s = FooterRender.fatalError m)) ∧
    (s.selectedIndex < 5 →
      (¬ ∃ m, renderActiveTab props s = ActiveTabRender.fatalError m) ∧
      (¬ ∃ m, renderFooter s = FooterRender.fatalError m)) := by
  constructor
  · intro h
    obtain ⟨n, hn⟩ : ∃ n, s.selectedIndex = n + 5 := ⟨s.selectedIndex - 5, by omega⟩
    exact ⟨⟨"Unknown tab index: " ++ toString (n + 5), by simp [renderActiveTab, hn]⟩,
      ⟨"Unknown tab index: " ++ toString (n + 5), by simp [renderFooter, hn]⟩⟩
  · intro h
    have h5 : s.selectedIndex = 0 ∨ s.selectedIndex = 1 ∨ s.selectedIndex = 2 ∨
        s.selectedIndex = 3 ∨ s.selectedIndex = 4 := by omega
    rcases h5 with h5 | h5 | h5 | h5 | h5 <;>
      exact ⟨fun ⟨m, hm⟩ => by simp [renderActiveTab, h5] at hm,
        fun ⟨m, hm⟩ => by simp [renderFooter, h5] at hm⟩

/-- Witness for C7: tab index 9 reaches the failure branch of both render
functions, tab index 2 (Git) reaches it in neither. -/
theorem tab_out_of_enumeration_fatal_witness :
    ((∃ m, renderActiveTab sampleProps
        { initialState sampleProps with selectedIndex := 9 } =
          ActiveTabRender.fatalError m) ∧
      (∃ m, renderFooter { initialState sampleProps with selectedIndex := 9 } =
        FooterRender.fatalError m)) ∧
    ((¬ ∃ m, renderActiveTab sampleProps sampleInvalidGitState =
        ActiveTabRender.fatalError m) ∧
      (¬ ∃ m, renderFooter sampleInvalidGitState = FooterRender.fatalError m)) :=
  ⟨(tab_out_of_enumeration_fatal sampleProps _).1 (by decide),
   (tab_out_of_enumeration_fatal sampleProps _).2 (by decide)⟩

/-- C3: the committer-name handler stores the name and recomputes validity
in the same state update: a name composed entirely of disallowed
characters, or consisting only of whitespace, yields the fixed non-null
message; any other non-empty string yields a null message. -/
theorem committer_name_validation (name : String) (s : IPreferencesState) :
    (onCommitterNameChanged name s).committerName = name ∧
    ((name.data.all isGitNameDisallowedChar = true ∨
      name.data.all Char.isWhitespace = true) →
      (onCommitterNameChanged name s).disallowedCharactersMessage =
        some disallowedMessageText) ∧
    ((name ≠ "" ∧ name.data.all isGitNameDisallowedChar = false ∧
      name.data.all Char.isWhitespace = false) →
      (onCommitterNameChanged name s).disallowedCharactersMessage = none) := by
  refine ⟨rfl, ?_, ?_⟩
  · rintro (h | h) <;> simp [onCommitterNameChanged, gitAuthorNameIsValid, h]
  · rintro ⟨h0, h1, h2⟩
    simp [onCommitterNameChanged, gitAuthorNameIsValid, h1, h2]

/-- Witness for C3: the name consisting of two angle brackets produces the
fixed message, the name "Jane Doe" clears it. -/
theorem committer_name_validation_witness :
    (("<>".data.all isGitNameDisallowedChar = true ∨
        "<>".data.all Char.isWhitespace = true) ∧
      (onCommitterNameChanged "<>" (initialState sampleProps)).disallowedCharactersMessage =
        some disallowedMessageText) ∧
    (("Jane Doe" ≠ "" ∧ "Jane Doe".data.all isGitNameDisallowedChar = false ∧
        "Jane Doe".data.all Char.isWhitespace = false) ∧
      (onCommitterNameChanged "Jane Doe"
        (initialState sampleProps)).disallowedCharactersMessage = none) :=
  ⟨⟨Or.inl (by decide),
    (committer_name_validation "<>" (initialState sampleProps)).2.1 (Or.inl (by decide))⟩,
   ⟨⟨by decide, by decide, by decide⟩,
    (committer_name_validation "Jane Doe" (initialState sampleProps)).2.2
      ⟨by decide, by decide, by decide⟩⟩⟩

theorem jsStrFalsy_getD {o : Option String} (h : jsStrFalsy o = true) :
    o.getD "" = "" := by
  cases o with
  | none => rfl
  | some s =>
    simp [jsStrFalsy] at h
    simp [h]

/-- C4: during load, when the config store yields no (or an empty)
committer name and/or email and a signed-in account exists (a dot-com
account preferred over an enterprise account), the missing name is seeded
from the account login and the missing email from the account's preferred
email; when the email lookup yields nothing, the email ends as the empty
string. -/
theorem load_seeds_identity_from_account (cfg : String → Option String)
    (dotComAccount enterpriseAccount : Option Account) (a : Account)
    (hacct : dotComAccount = some a ∨
      (dotComAccount = none ∧ enterpriseAccount = some a)) :
    (jsStrFalsy (cfg "user.name") = true →
      (componentWillMountIdentity cfg dotComAccount enterpriseAccount).1 =
        a.login) ∧
    (jsStrFalsy (cfg "user.email") = true →
      (componentWillMountIdentity cfg dotComAccount enterpriseAccount).2 =
        (match lookupPreferredEmail a with
         | some found => found.email
         | none => "")) := by
  have hor : dotComAccount.or enterpriseAccount = some a := by
    rcases hacct with h | ⟨h1, h2⟩
    · rw [h]; rfl
    · rw [h1, h2]; rfl
  constructor
  · intro h1
    simp [componentWillMountIdentity, hor, h1]
  · intro h2
    have hdisj : (jsStrFalsy (cfg "user.name") || jsStrFalsy (cfg "user.email")) = true := by
      rw [h2]; simp
    cases hl : lookupPreferredEmail a with
    | some found => simp [componentWillMountIdentity, hor, hdisj, h2, hl]
    | none => simp [componentWillMountIdentity, hor, hdisj, h2, hl, jsStrFalsy_getD h2]

/-- A sample signed-in account whose preferred email is its first verified
address. -/
def sampleAccount : Account where
  login := "alice"
  emails := [{ email := "first@example.com", verified := false },
             { email := "verified@example.com", verified := true }]

/-- Witness for C4: with an empty config store and a dot-com account, the
seeded name is the account login and the seeded email is the preferred
(first verified) address. -/
theorem load_seeds_identity_from_account_witness :
    ((some sampleAccount : Option Account) = some sampleAccount ∨
      ((some sampleAccount : Option Account) = none ∧
        (none : Option Account) = some sampleAccount)) ∧
    jsStrFalsy ((fun _ => (none : Option String)) "user.name") = true ∧
    jsStrFalsy ((fun _ => (none : Option String)) "user.email") = true ∧
    (componentWillMountIdentity (fun _ => none) (some sampleAccount) none).1 =
      sampleAccount.login ∧
    (componentWillMountIdentity (fun _ => none) (some sampleAccount) none).2 =
      (match lookupPreferredEmail sampleAccount with
       | some found => found.email
       | none => "") :=
  ⟨Or.inl rfl, rfl, rfl,
   (load_seeds_identity_from_account (fun _ => none) (some sampleAccount) none
     sampleAccount (Or.inl rfl)).1 rfl,
   (load_seeds_identity_from_account (fun _ => none) (some sampleAccount) none
     sampleAccount (Or.inl rfl)).2 rfl⟩

/-- Counterexample to C6: between dialog construction and the completion
of the asynchronous load, the telemetry opt-out selection does not equal
the value passed in from the hosting application's props: the constructor
hardcodes `false` while the sample props carry `true`. -/
theorem initial_state_not_from_props :
    (initialState sampleProps).optOutOfUsageTracking ≠
      sampleProps.optOutOfUsageTracking := by decide

/-- C6 (corrected): from construction on, the editor and shell selections
equal the caller-provided props, but the confirm flags, the telemetry
opt-out and the uncommitted-changes strategy start at hardcoded defaults
(`false`, respectively the strategy default) and equal the props only
after the load's single state update has been applied. -/
theorem initial_state_sources (props : IPreferencesProps)
    (cfg : String → Option String) (editors : List FoundEditor)
    (shells : List FoundShell) (mergeTool : Option IMergeTool) :
    (initialState props).selectedExternalEditor = props.selectedExternalEditor ∧
    (initialState props).selectedShell = props.selectedShell ∧
    (initialState props).optOutOfUsageTracking = false ∧
    (initialState props).confirmRepositoryRemoval = false ∧
    (initialState props).confirmDiscardChanges = false ∧
    (initialState props).confirmForcePush = false ∧
    (initialState props).uncommittedChangesStrategyKind =
      uncommittedChangesStrategyKindDefault ∧
    (componentWillMount props cfg editors shells mergeTool
        (initialState props)).optOutOfUsageTracking =
      props.optOutOfUsageTracking ∧
    (componentWillMount props cfg editors shells mergeTool
        (initialState props)).confirmRepositoryRemoval =
      props.confirmRepositoryRemoval ∧
    (componentWillMount props cfg editors shells mergeTool
        (initialState props)).confirmDiscardChanges =
      props.confirmDiscardChanges ∧
    (componentWillMount props cfg editors shells mergeTool
        (initialState props)).confirmForcePush = props.confirmForcePush ∧
    (componentWillMount props cfg editors shells mergeTool
        (initialState props)).uncommittedChangesStrategyKind =
      props.uncommittedChangesStrategyKind ∧
    (componentWillMount props cfg editors shells mergeTool
        (initialState props)).selectedExternalEditor =
      props.selectedExternalEditor ∧
    (componentWillMount props cfg editors shells mergeTool
        (initialState props)).selectedShell = props.selectedShell :=
  ⟨rfl, rfl, rfl, rfl, rfl, rfl, rfl, rfl, rfl, rfl, rfl, rfl, rfl, rfl⟩

/-- C8: clicking a tab is a pure synchronous update of the selected index
alone: every other state field is unchanged, no external effect is
emitted, and nothing — in particular not an invalid committer name —
blocks the switch. -/
theorem tab_click_frame (index : Nat) (s : IPreferencesState) :
    (onTabClicked index s).1.selectedIndex = index ∧
    (onTabClicked index s).2 = [] ∧
    (onTabClicked index s).1.committerName = s.committerName ∧
    (onTabClicked index s).1.committerEmail = s.committerEmail ∧
    (onTabClicked index s).1.disallowedCharactersMessage =
      s.disallowedCharactersMessage ∧
    (onTabClicked index s).1.optOutOfUsageTracking = s.optOutOfUsageTracking ∧
    (onTabClicked index s).1.confirmRepositoryRemoval =
      s.confirmRepositoryRemoval ∧
    (onTabClicked index s).1.confirmDiscardChanges = s.confirmDiscardChanges ∧
    (onTabClicked index s).1.confirmForcePush = s.confirmForcePush ∧
    (onTabClicked index s).1.automaticallySwitchTheme =
      s.automaticallySwitchTheme ∧
    (onTabClicked index s).1.uncommittedChangesStrategyKind =
      s.uncommittedChangesStrategyKind ∧
    (onTabClicked index s).1.availableEditors = s.availableEditors ∧
    (onTabClicked index s).1.selectedExternalEditor = s.selectedExternalEditor ∧
    (onTabClicked index s).1.availableShells = s.availableShells ∧
    (onTabClicked index s).1.selectedShell = s.selectedShell ∧
    (onTabClicked index s).1.mergeTool = s.mergeTool :=
  ⟨rfl, rfl, rfl, rfl, rfl, rfl, rfl, rfl, rfl, rfl, rfl, rfl, rfl, rfl, rfl, rfl⟩
